import Mathlib

/-!
Verification development for the netcode core of the 2D multiplayer
platformer (authoritative Colyseus room + predictive Phaser client +
shared Matter.js physics utilities).

The embedding below is a shallow translation of the TypeScript source:

* shared/physicsUtils.ts + shared/constants.ts: `isGrounded`, `applyJump`,
  `createPlayerBody`, the numeric constants;
* server/rooms/PlatformerRoom.ts: the `Player` schema, the `onMessage(0)`
  input handler, and `fixedTick` (grounded recompute, queue sort, drain
  loop, queue cleanup, engine update, state write-back);
* client/scenes/PlatformerScene.ts: `applyInput`, `isPlayerGrounded`,
  `fixedTick` (tick increment, payload creation, buffer push, local
  prediction, buffer cleanup), `reconcileWithServer`, and the pong
  handler of `setupRTTCalculation`.

JavaScript numbers are modelled as exact rationals (`ℚ`); every
arithmetic operation the modelled code performs (+, -, *, /, comparison)
is exact on the concrete values used here, so the rational model agrees
with the double-precision source on all statements below.

The physics engine (Matter.js) is an external capability.  Its queries
and its integrator are modelled as an explicit oracle environment
(`PhysEnv`): a collision query, a ray query and the `Engine.update`
integrator.  Both peers call the engine with identical parameters, so a
single environment serves both sides; the embedded code consults the
oracle exactly where the source calls the engine.
-/

/-! ## Shared constants (shared/constants.ts) -/

def PLAYER_SPEED : ℚ := 5
def JUMP_FORCE : ℚ := 3 / 20          -- 0.15
def PLAYER_SIZE : ℚ := 32
def SPAWN_X : ℚ := 50
def SPAWN_Y : ℚ := 500
def GROUND_THRESHOLD : ℚ := 2
def FIXED_TIME_STEP : ℚ := 1000 / 60  -- ms per tick, 60 FPS

/-! ## Shared types (shared/types.ts) -/

/-- Wire shape of one input command:
`{left: bool, right: bool, jump: bool, tick: number}`. -/
structure InputData where
  left : Bool
  right : Bool
  jump : Bool
  tick : Int
deriving Repr, DecidableEq

/-- A Matter.js rigid body, restricted to the fields the netcode core
reads or writes: position, velocity, and the accumulated force that
`Matter.Body.applyForce` adds to (only its y component is ever used). -/
structure Body where
  x : ℚ
  y : ℚ
  vx : ℚ
  vy : ℚ
  forceY : ℚ
deriving Repr, DecidableEq

/-- A static ground/platform body as seen by the grounded check:
its centre y (`body.position.y`) and its vertical bounds
(`body.bounds.min.y` / `body.bounds.max.y`). -/
structure GroundBody where
  posY : ℚ
  boundsMinY : ℚ
  boundsMaxY : ℚ
deriving Repr, DecidableEq

/-- Oracles for the external physics engine.  `collidesAsB b g` is the
result of the test `Matter.Collision.collides(body, groundBody)`
returning a collision whose `bodyB` is the ground body; `rayHit x y` is
`Matter.Query.ray(groundBodies, (x,y), (x, y + PLAYER_SIZE/2 + 2))`
returning at least one hit (both peers cast exactly this ray over the
same shared level geometry, so one oracle serves both); `engineUpdate`
is one `Matter.Engine.update` integration step over the dynamic bodies,
keyed by session id. -/
structure PhysEnv where
  collidesAsB : Body → GroundBody → Bool
  rayHit : ℚ → ℚ → Bool
  engineUpdate : List (String × Body) → List (String × Body)

/-- `Math.abs` on rationals. -/
def ratAbs (q : ℚ) : ℚ := if q < 0 then -q else q

/-! ## Shared physics utilities (shared/physicsUtils.ts) -/

/-- Shared `isGrounded(body, groundBodies)`: first the per-surface
collision-contact test (`Collision.collides` hit with the player bottom
within `GROUND_THRESHOLD` of the surface top), then the downward ray
cast, then the small-vertical-velocity fallback
`Math.abs(body.velocity.y) < 0.1`. -/
def isGrounded (env : PhysEnv) (grounds : List GroundBody) (b : Body) : Bool :=
  (grounds.any fun g =>
    env.collidesAsB b g &&
      decide (b.y + PLAYER_SIZE / 2 ≤
        (g.posY - (g.boundsMaxY - g.boundsMinY) / 2) + GROUND_THRESHOLD))
  || env.rayHit b.x b.y
  || decide (ratAbs b.vy < 1 / 10)

/-- Shared `applyJump(body, jumpForce)`:
`Matter.Body.applyForce(body, body.position, {x: 0, y: -jumpForce})`
accumulates into the body's force. -/
def applyJump (b : Body) (jumpForce : ℚ) : Body :=
  { b with forceY := b.forceY - jumpForce }

/-- Shared `createPlayerBody(x, y, options)`: a fresh rectangle body at
`(x, y)` with zero velocity and zero accumulated force. -/
def createPlayerBody (x y : ℚ) : Body :=
  { x := x, y := y, vx := 0, vy := 0, forceY := 0 }

/-! ## Client-side grounded check and input application
(client/scenes/PlatformerScene.ts) -/

/-- Client `isPlayerGrounded()`: returns `false` when there is no player
or no ground bodies; otherwise the downward ray cast
(length `PLAYER_SIZE/2 + 2`) or the velocity fallback
`Math.abs(body.velocity.y) < 0.1`.  Unlike the shared `isGrounded`, the
client check has no collision-contact clause. -/
def isPlayerGrounded (env : PhysEnv) (grounds : List GroundBody) (b : Body) : Bool :=
  if grounds.isEmpty then false
  else env.rayHit b.x b.y || decide (ratAbs b.vy < 1 / 10)

/-- Client `applyInput(input)`: recompute grounded, set horizontal
velocity from the left/right flags (`left` wins when both are set,
since the source tests `left` first), keep vertical velocity, then
apply the jump force if `jump` is set and the player is grounded. -/
def applyInput (env : PhysEnv) (grounds : List GroundBody) (b : Body)
    (input : InputData) : Body :=
  let grounded := isPlayerGrounded env grounds b
  let velocityX : ℚ :=
    if input.left then -PLAYER_SPEED
    else if input.right then PLAYER_SPEED
    else 0
  let b1 := { b with vx := velocityX }
  if input.jump && grounded then applyJump b1 JUMP_FORCE else b1

/-! ## Server-side input application (server/rooms/PlatformerRoom.ts,
inside `fixedTick`) -/

/-- One iteration of the server drain loop's body applied to one input:
horizontal velocity from left/right (`left` tested first), keep vertical
velocity, jump only if `jump` is set and the grounded flag computed at
the start of the step is true.  `grounded` is the per-step
`player.isGrounded` value, not recomputed per input. -/
def serverApplyOne (grounded : Bool) (b : Body) (input : InputData) : Body :=
  let velocityX : ℚ :=
    if input.left then -PLAYER_SPEED
    else if input.right then PLAYER_SPEED
    else 0
  let b1 := { b with vx := velocityX }
  if input.jump && grounded then applyJump b1 JUMP_FORCE else b1

/-! ## Server room state and fixed step (server/rooms/PlatformerRoom.ts) -/

/-- The `Player` schema plus its (non-serialised) physics body: position,
velocity, last integration tick, grounded flag, reconciliation watermark
`lastProcessedTick`, the per-connection `inputQueue`, and the Matter
body. -/
structure Player where
  x : ℚ
  y : ℚ
  vx : ℚ
  vy : ℚ
  tick : Int
  isGrounded : Bool
  lastProcessedTick : Int
  inputQueue : List InputData
  body : Body
deriving Repr, DecidableEq

/-- Room state: the server tick counter and the session-keyed player
map (modelled as an association list in insertion order, the iteration
order of `MapSchema.forEach`). -/
structure RoomState where
  currentTick : Int
  players : List (String × Player)
deriving Repr, DecidableEq

/-- `onJoin`: a fresh player at the spawn point with zero velocity, a
fresh physics body, `lastProcessedTick = 0` and `tick` stamped with the
room's current tick. -/
def joinPlayer (currentTick : Int) : Player :=
  { x := SPAWN_X, y := SPAWN_Y, vx := 0, vy := 0, tick := currentTick,
    isGrounded := false, lastProcessedTick := 0, inputQueue := [],
    body := createPlayerBody SPAWN_X SPAWN_Y }

/-- The `onMessage(0, ...)` input handler: look the sender up in the
player map; if present, push the command onto that player's
`inputQueue`; if absent (join not completed), do nothing. -/
def handleInputMessage (s : RoomState) (sid : String) (input : InputData) :
    RoomState :=
  match s.players.lookup sid with
  | none => s
  | some _ =>
    { s with
      players := s.players.map fun sp =>
        if sp.1 == sid then
          (sp.1, { sp.2 with inputQueue := sp.2.inputQueue ++ [input] })
        else sp }

/-- Insert one command into an already-processed prefix, after every
entry whose tick is ≤ its own (so equal ticks keep arrival order). -/
def insertSortedByTick (i : InputData) : List InputData → List InputData
  | [] => [i]
  | j :: rest =>
    if j.tick ≤ i.tick then j :: insertSortedByTick i rest
    else i :: j :: rest

/-- `inputQueue.sort((a, b) => a.tick - b.tick)`: JavaScript `Array#sort`
is a stable sort (ES2019), and the output of any stable sort by tick is
the unique permutation that is ordered by tick and keeps the arrival
order of equal ticks; this insertion sort produces exactly that
permutation. -/
def sortByTick (q : List InputData) : List InputData :=
  q.foldl (fun acc i => insertSortedByTick i acc) []

/-- Result of the server drain loop: the commands left in the queue, the
body after the consumed commands were applied, the updated
`lastProcessedTick`, and the consumed commands in consumption order. -/
structure DrainResult where
  remaining : List InputData
  body : Body
  lastProcessedTick : Int
  applied : List InputData
deriving Repr, DecidableEq

/-- The drain loop of `fixedTick`:
`while (queue.length > 0 && queue[0].tick <= currentTick)` shift the
head, apply it to the body (with the per-step grounded flag), and set
`lastProcessedTick` to the consumed command's tick. -/
def drainInputQueue (grounded : Bool) (currentTick : Int) :
    List InputData → Body → Int → DrainResult
  | [], b, lpt => ⟨[], b, lpt, []⟩
  | i :: rest, b, lpt =>
    if i.tick ≤ currentTick then
      let r := drainInputQueue grounded currentTick rest
        (serverApplyOne grounded b i) i.tick
      { r with applied := i :: r.applied }
    else ⟨i :: rest, b, lpt, []⟩

/-- The per-player part of the server `fixedTick`: recompute the
grounded flag from the current body and static geometry, sort the input
queue by tick, drain commands with tick ≤ the room's current tick, and
clean the queue (when more than 20 entries remain, keep only those with
tick > currentTick − 10). -/
def stepPlayer (env : PhysEnv) (grounds : List GroundBody)
    (currentTick : Int) (p : Player) : Player :=
  let grounded := isGrounded env grounds p.body
  let r := drainInputQueue grounded currentTick (sortByTick p.inputQueue)
    p.body p.lastProcessedTick
  let cleaned :=
    if r.remaining.length > 20 then
      r.remaining.filter fun i => decide (i.tick > currentTick - 10)
    else r.remaining
  { p with
    isGrounded := grounded
    body := r.body
    lastProcessedTick := r.lastProcessedTick
    inputQueue := cleaned }

/-- Server `fixedTick(timeStep)`: increment the tick counter, run the
per-player input processing, advance the physics engine one fixed step
over all dynamic bodies, then write each body's position and velocity
back into the player schema and stamp `tick` with the new counter. -/
def serverFixedTick (env : PhysEnv) (grounds : List GroundBody)
    (s : RoomState) : RoomState :=
  let t := s.currentTick + 1
  let stepped := s.players.map fun sp => (sp.1, stepPlayer env grounds t sp.2)
  let updatedBodies := env.engineUpdate (stepped.map fun sp => (sp.1, sp.2.body))
  let finalPlayers := stepped.map fun sp =>
    let b := (updatedBodies.lookup sp.1).getD sp.2.body
    (sp.1, { sp.2 with
      body := b
      x := b.x
      y := b.y
      vx := b.vx
      vy := b.vy
      tick := t })
  { currentTick := t, players := finalPlayers }

/-- A run of the authoritative loop: for each fixed step, first deliver
that step's arriving input messages (the asynchronous receipt path only
appends to queues between steps), then execute `fixedTick`. -/
def serverRun (env : PhysEnv) (grounds : List GroundBody) (s : RoomState)
    (sched : List (List (String × InputData))) : RoomState :=
  sched.foldl
    (fun st arrivals =>
      serverFixedTick env grounds
        (arrivals.foldl (fun st2 a => handleInputMessage st2 a.1 a.2) st))
    s

/-! ## Client predictive loop (client/scenes/PlatformerScene.ts) -/

/-- Client-side loop state: the client tick counter, the RTT-derived
server tick offset, the prediction input buffer, and the local player's
physics body. -/
structure ClientState where
  currentTick : Int
  serverTickOffset : Int
  inputBuffer : List InputData
  body : Body
deriving Repr, DecidableEq

/-- Client `fixedTick(time, delta)`: increment the tick, build the input
payload with `tick = currentTick + serverTickOffset` from the pressed
keys, push it onto the prediction buffer, send it (transport is outside
this core), apply it locally, then clean the buffer: when it holds more
than 100 entries, keep only those with tick > adjustedTick − 50. -/
def clientFixedTick (env : PhysEnv) (grounds : List GroundBody)
    (leftKey rightKey jumpKey : Bool) (cs : ClientState) : ClientState :=
  let t := cs.currentTick + 1
  let adjustedTick := t + cs.serverTickOffset
  let payload : InputData :=
    { left := leftKey, right := rightKey, jump := jumpKey, tick := adjustedTick }
  let buf1 := cs.inputBuffer ++ [payload]
  let b1 := applyInput env grounds cs.body payload
  let buf2 :=
    if buf1.length > 100 then
      buf1.filter fun i => decide (i.tick > adjustedTick - 50)
    else buf1
  { cs with currentTick := t, inputBuffer := buf2, body := b1 }

/-- `Phaser.Math.Linear(p0, p1, t) = (p1 - p0) * t + p0`. -/
def linear (p0 p1 t : ℚ) : ℚ := (p1 - p0) * t + p0

/-- Squared Euclidean distance between two points. -/
def distSqBetween (ax ay bx by' : ℚ) : ℚ := (bx - ax) ^ 2 + (by' - ay) ^ 2

/-- `Phaser.Math.Distance.Between(ax, ay, bx, by)`: the Euclidean
distance, used by `reconcileWithServer` only in the comparison
`distance > 30`. -/
noncomputable def distanceBetween (ax ay bx by' : ℚ) : ℝ :=
  Real.sqrt ((distSqBetween ax ay bx by' : ℚ) : ℝ)

/-- Client `reconcileWithServer(serverPlayer)`: compute the distance
between the predicted and authoritative positions, pick the blend
factor (0.5 when distance > 30, else 0.2 — written here through the
equivalent squared comparison, see `distanceBetween_gt_30_iff`), lerp
position and velocity toward the authoritative values, drop buffered
commands with tick ≤ the authoritative `lastProcessedTick`, replay the
remaining ones through `applyInput`, and return the new body, the new
buffer and the new `lastReconciledTick`. -/
def reconcileWithServer (env : PhysEnv) (grounds : List GroundBody)
    (b : Body) (buffer : List InputData) (sp : Player) :
    Body × List InputData × Int :=
  let lerpFactor : ℚ :=
    if distSqBetween b.x b.y sp.x sp.y > 900 then 1 / 2 else 1 / 5
  let b1 := { b with
    x := linear b.x sp.x lerpFactor
    y := linear b.y sp.y lerpFactor }
  let b2 := { b1 with
    vx := linear b1.vx sp.vx lerpFactor
    vy := linear b1.vy sp.vy lerpFactor }
  let buf2 := buffer.filter fun i => decide (i.tick > sp.lastProcessedTick)
  let b3 := buf2.foldl (applyInput env grounds) b2
  (b3, buf2, sp.lastProcessedTick)

/-! ## Tick synchroniser (client `setupRTTCalculation`) -/

/-- JavaScript `Math.round`: round half toward positive infinity. -/
def jsRound (q : ℚ) : Int := ⌊q + 1 / 2⌋

/-- The pong handler: `rtt = endTime − lastPingTime`,
`serverTickOffset = Math.round(rtt / (2 * FIXED_TIME_STEP))`.  Returns
the pair `(rtt, serverTickOffset)`. -/
def computeTickOffset (rtt : ℚ) : Int := jsRound (rtt / (2 * FIXED_TIME_STEP))

/-- The full pong-receipt computation from the two timestamps. -/
def handlePong (endTime lastPingTime : ℚ) : ℚ × Int :=
  let rtt := endTime - lastPingTime
  (rtt, computeTickOffset rtt)

/-! ## Concrete fixtures used by witnesses and counterexamples -/

/-- The static level geometry of `LEVEL_CONFIG` as seen by the grounded
check: the ground (`y = 590`, height 20) and the two platforms
(`y = 400` and `y = 300`, height 20), identical on both peers.
`Matter.Bodies.rectangle(x, y, w, h)` centres the body at `(x, y)`,
so its vertical bounds are `y ± h/2`. -/
def LEVEL_GROUNDS : List GroundBody :=
  [{ posY := 590, boundsMinY := 580, boundsMaxY := 600 },
   { posY := 400, boundsMinY := 390, boundsMaxY := 410 },
   { posY := 300, boundsMinY := 290, boundsMaxY := 310 }]

/-- A quiescent physics environment: no collision contacts, no ray hits,
and an integrator that leaves every body unchanged.  A legitimate
instantiation of the external engine for states where nothing moves. -/
def env0 : PhysEnv :=
  { collidesAsB := fun _ _ => false
    rayHit := fun _ _ => false
    engineUpdate := fun l => l }

/-- A physics environment describing a corner contact with the platform
at `y = 400` (the one spanning `x ∈ [100, 300]`): the collision query
reports a contact with that platform, the centre ray misses (the player
centre hangs past the platform edge), and the integrator is quiescent.
Physically realisable: a 32×32 player centred at `(310, 376)` overlaps
the platform corner by 2 vertical and 6 horizontal pixels while its
centre ray at `x = 310` passes beyond the platform's right edge. -/
def env1 : PhysEnv :=
  { collidesAsB := fun _ g => decide (g.posY = 400)
    rayHit := fun _ _ => false
    engineUpdate := fun l => l }

/-- The corner-contact body: centred at `(310, 376)` (bottom edge at
`y = 392`, exactly `GROUND_THRESHOLD` below the platform top at 390),
falling with `vy = 1`. -/
def bCorner : Body := { x := 310, y := 376, vx := 0, vy := 1, forceY := 0 }

/-- The session id used by the concrete room fixtures. -/
def sidA : String := "alice"

/-- A session id no entity was created for. -/
def sidGhost : String := "ghost"

/-- A room at tick 0 with one joined player. -/
def st0 : RoomState := { currentTick := 0, players := [(sidA, joinPlayer 0)] }

/-- An idle input command stamped with tick 1. -/
def cT1 : InputData := { left := false, right := false, jump := false, tick := 1 }

/-- An idle input command stamped with tick 2. -/
def cT2 : InputData := { left := false, right := false, jump := false, tick := 2 }

/-- A jump command stamped with tick 1. -/
def cJump : InputData := { left := false, right := false, jump := true, tick := 1 }

/-! ## Step-logic slices compared by the refinement claim -/

/-- The input-application slice of the server `fixedTick`: the grounded
flag is computed once per step via the shared `isGrounded`, then every
drained command is applied in order with that fixed flag. -/
def serverApplyInputs (env : PhysEnv) (grounds : List GroundBody)
    (b : Body) (cmds : List InputData) : Body :=
  cmds.foldl (serverApplyOne (isGrounded env grounds b)) b

/-- The client's predictive application of the same command sequence:
`applyInput` per command, which recomputes `isPlayerGrounded` before
each command (this is also exactly what the reconciliation replay
does). -/
def clientApplyInputs (env : PhysEnv) (grounds : List GroundBody)
    (b : Body) (cmds : List InputData) : Body :=
  cmds.foldl (applyInput env grounds) b

/-! ## Remaining concrete fixtures -/

/-- The room after two authoritative steps in which a command stamped
tick 2 arrived before the first step: the watermark has reached 2. -/
def c3mid : RoomState := serverRun env0 LEVEL_GROUNDS st0 [[(sidA, cT2)], []]

/-- A freshly joined player whose queue holds the tick-1 command. -/
def p3 : Player := { joinPlayer 0 with inputQueue := [cT1] }

/-- A body at the origin with zero velocity. -/
def bZero : Body := createPlayerBody 0 0

/-- A mid-air body at `(100, 100)` with zero vertical velocity — the
apex of a jump, far from all level geometry. -/
def bApex : Body := { x := 100, y := 100, vx := 0, vy := 0, forceY := 0 }

/-- The authoritative player snapshot used by the reconciliation claim:
40 units from the predicted position `(0, 0)`, at rest, watermark 0. -/
def c4sp : Player :=
  { x := 40, y := 0, vx := 0, vy := 0, tick := 1, isGrounded := true,
    lastProcessedTick := 0, inputQueue := [], body := createPlayerBody 40 0 }

/-- The predicted body after one reconciliation pass against `c4sp`
starting 40 units away with an empty input buffer. -/
def c4pass1 : Body := (reconcileWithServer env0 LEVEL_GROUNDS bZero [] c4sp).1

/-- The predicted body after a second reconciliation pass against the
same snapshot (no further divergence, still an empty buffer). -/
def c4pass2 : Body := (reconcileWithServer env0 LEVEL_GROUNDS c4pass1 [] c4sp).1

/-- Queue-ordering fixture commands with ticks 5, 2, 9, 2; the two
tick-2 commands are distinguishable by their flags. -/
def c5a : InputData := { left := false, right := false, jump := false, tick := 5 }

/-- First tick-2 command (left flag set). -/
def c5b : InputData := { left := true, right := false, jump := false, tick := 2 }

/-- Tick-9 command. -/
def c5c : InputData := { left := false, right := false, jump := false, tick := 9 }

/-- Second tick-2 command (right flag set), a tick duplicate of `c5b`. -/
def c5d : InputData := { left := false, right := true, jump := false, tick := 2 }

/-- The drain of the queue enqueued as `[5, 2, 9, 2]` up to tick 9,
exactly as the server `fixedTick` performs it: sort by tick, then
consume every command with tick ≤ 9. -/
def c5drain : DrainResult :=
  drainInputQueue true 9 (sortByTick [c5a, c5b, c5c, c5d]) bZero 0

/-- A both-flags-pressed command. -/
def iBoth : InputData := { left := true, right := true, jump := false, tick := 1 }

/-- `n` idle filler commands with ticks `0, 1, …, n−1`. -/
def fillerCmds (n : Nat) : List InputData :=
  (List.range n).map fun k =>
    { left := false, right := false, jump := false, tick := (k : Int) }

/-- A client at tick 200 (offset 0) whose prediction buffer already
holds 100 commands: the next fixed step overflows the high-water
mark. -/
def csFull : ClientState :=
  { currentTick := 200, serverTickOffset := 0, inputBuffer := fillerCmds 100,
    body := bZero }

/-- 21 idle commands with future ticks `6, …, 26`. -/
def futureCmds : List InputData :=
  (List.range 21).map fun k =>
    { left := false, right := false, jump := false, tick := (k : Int) + 6 }

/-- A player whose queue holds 21 not-yet-due commands: an authoritative
step at tick 5 drains none of them and leaves the queue above the
high-water mark of 20. -/
def pFuture : Player := { joinPlayer 0 with inputQueue := futureCmds }

/-! ## Helper lemmas -/

/-- Every element surviving a filter satisfies the filter predicate. -/
theorem all_filter_self {α : Type} (p : α → Bool) (l : List α) :
    (l.filter p).all p = true := by
  rw [List.all_eq_true]
  intro a ha
  exact (List.mem_filter.mp ha).2

/-- Membership in the sorted-insert helper. -/
theorem mem_insertSortedByTick (a i : InputData) (l : List InputData) :
    a ∈ insertSortedByTick i l ↔ a = i ∨ a ∈ l := by
  induction l with
  | nil => simp [insertSortedByTick]
  | cons j rest ih =>
    by_cases h : j.tick ≤ i.tick
    · simp only [insertSortedByTick, if_pos h, List.mem_cons, ih]
      tauto
    · simp only [insertSortedByTick, if_neg h, List.mem_cons]

/-- Elements of the stable sort come from the accumulator or the input. -/
theorem mem_sortByTick_aux (a : InputData) :
    ∀ (q acc : List InputData),
      a ∈ q.foldl (fun acc2 i => insertSortedByTick i acc2) acc →
      a ∈ acc ∨ a ∈ q := by
  intro q
  induction q with
  | nil => intro acc h; exact Or.inl h
  | cons i rest ih =>
    intro acc h
    rcases ih (insertSortedByTick i acc) h with h2 | h2
    · rcases (mem_insertSortedByTick a i acc).mp h2 with h3 | h3
      · right; simp [h3]
      · left; exact h3
    · right; simp [h2]

/-- Every element of the sorted queue is an element of the queue. -/
theorem mem_of_mem_sortByTick (a : InputData) (q : List InputData)
    (h : a ∈ sortByTick q) : a ∈ q := by
  rcases mem_sortByTick_aux a q [] h with h2 | h2
  · cases h2
  · exact h2

/-- The watermark produced by the drain loop is either the incoming one
or the tick of some queued command. -/
theorem drainInputQueue_lpt_cases (g : Bool) (t : Int) :
    ∀ (q : List InputData) (b : Body) (lpt : Int),
      (drainInputQueue g t q b lpt).lastProcessedTick = lpt ∨
      ∃ i ∈ q, (drainInputQueue g t q b lpt).lastProcessedTick = i.tick := by
  intro q
  induction q with
  | nil => intro b lpt; left; rfl
  | cons i rest ih =>
    intro b lpt
    by_cases h : i.tick ≤ t
    · rcases ih (serverApplyOne g b i) i.tick with h2 | ⟨j, hj, h2⟩
      · right
        exact ⟨i, by simp, by simp [drainInputQueue, h, h2]⟩
      · right
        exact ⟨j, by simp [hj], by simp [drainInputQueue, h, h2]⟩
    · left
      simp [drainInputQueue, h]


/-! ## Claim theorems -/

/-- The source's branch condition `distance > 30` in
`reconcileWithServer` is equivalent to the executable comparison
`distSq > 900`, because the distance is the nonnegative square root of
`distSq`.  This justifies the squared form used in the embedding. -/
theorem distanceBetween_gt_30_iff (ax ay bx by' : ℚ) :
    distanceBetween ax ay bx by' > 30 ↔ distSqBetween ax ay bx by' > 900 := by
  show (30 : ℝ) < Real.sqrt ((distSqBetween ax ay bx by' : ℚ) : ℝ) ↔
    (900 : ℚ) < distSqBetween ax ay bx by'
  rw [Real.lt_sqrt (by norm_num : (0 : ℝ) ≤ 30)]
  rw [show ((30 : ℝ) ^ 2) = ((900 : ℚ) : ℝ) from by norm_num]
  exact_mod_cast Iff.rfl

/-- Claim C1 (code bug): the authoritative and predictive step logics
are not bit-for-bit equivalent.  On the corner-contact state `bCorner`
(player bottom within the contact threshold of the platform top, centre
ray missing the platform, `|vy| ≥ 0.1`) with a single jump command, the
server's `fixedTick` deems the player grounded through the
collision-contact clause of the shared `isGrounded` and applies the
jump force, while the client's `applyInput` uses its own
`isPlayerGrounded` (ray or small `|vy|` only), deems the player
airborne, and skips the jump: the resulting bodies differ. -/
theorem c1_grounded_divergence :
    (serverApplyInputs env1 LEVEL_GROUNDS bCorner [cJump]).forceY = -(3 / 20) ∧
    (clientApplyInputs env1 LEVEL_GROUNDS bCorner [cJump]).forceY = 0 ∧
    serverApplyInputs env1 LEVEL_GROUNDS bCorner [cJump] ≠
      clientApplyInputs env1 LEVEL_GROUNDS bCorner [cJump] := by
  have hg : isGrounded env1 LEVEL_GROUNDS bCorner = true := by
    simp [isGrounded, env1, LEVEL_GROUNDS, bCorner, PLAYER_SIZE, GROUND_THRESHOLD]
    norm_num
  have hpg : isPlayerGrounded env1 LEVEL_GROUNDS bCorner = false := by
    simp [isPlayerGrounded, env1, LEVEL_GROUNDS, bCorner, ratAbs]
    norm_num
  have hs : serverApplyInputs env1 LEVEL_GROUNDS bCorner [cJump] =
      { x := 310, y := 376, vx := 0, vy := 1, forceY := 0 - 3 / 20 } := by
    simp only [serverApplyInputs, List.foldl_cons, List.foldl_nil, hg]
    simp [serverApplyOne, cJump, applyJump, bCorner, JUMP_FORCE]
  have hc : clientApplyInputs env1 LEVEL_GROUNDS bCorner [cJump] =
      { x := 310, y := 376, vx := 0, vy := 1, forceY := 0 } := by
    simp only [clientApplyInputs, List.foldl_cons, List.foldl_nil, applyInput, hpg]
    simp [cJump, bCorner]
  refine ⟨by rw [hs]; norm_num, by rw [hc], ?_⟩
  rw [hs, hc]
  intro h
  have h2 := congrArg Body.forceY h
  norm_num at h2

/-- Claim C2: for any fixed starting room state and any finite ordered
sequence of arriving input commands, running the server's fixed step
logic twice on equal inputs yields identical resulting state — the
embedded step function is a pure function of the starting state, the
command schedule and the (deterministic) physics environment, with no
other inputs. -/
theorem c2_step_function_deterministic (env : PhysEnv)
    (grounds : List GroundBody) (s1 s2 : RoomState)
    (sched1 sched2 : List (List (String × InputData)))
    (hs : s1 = s2) (hsched : sched1 = sched2) :
    serverRun env grounds s1 sched1 = serverRun env grounds s2 sched2 := by
  subst hs
  subst hsched
  rfl

/-- Witness for C2: two identical concrete runs produce equal states. -/
theorem c2_step_function_deterministic_witness :
    serverRun env0 LEVEL_GROUNDS st0 [[(sidA, cT2)]] =
      serverRun env0 LEVEL_GROUNDS st0 [[(sidA, cT2)]] :=
  c2_step_function_deterministic env0 LEVEL_GROUNDS st0 st0
    [[(sidA, cT2)]] [[(sidA, cT2)]] rfl rfl

/-- Counterexample to claim C3 as stated: `lastProcessedTick` does
decrease when a command arrives late with a tick below the watermark.
After two steps in which the tick-2 command was consumed the watermark
is 2; a tick-1 command then arrives and the next step consumes it
(`1 ≤ currentTick`), resetting the watermark down to 1. -/
theorem c3_watermark_decrease_counterexample :
    ((serverRun env0 LEVEL_GROUNDS st0 [[(sidA, cT2)], []]).players.lookup
      sidA).map (fun p => p.lastProcessedTick) = some 2 ∧
    ((serverFixedTick env0 LEVEL_GROUNDS
        (handleInputMessage (serverRun env0 LEVEL_GROUNDS st0 [[(sidA, cT2)], []])
          sidA cT1)).players.lookup sidA).map
      (fun p => p.lastProcessedTick) = some 1 := by
  decide

/-- Claim C3, amended: `lastProcessedTick` never decreases across an
authoritative step provided every command in the entity's queue carries
a tick at least the current watermark (in particular whenever no
command arrives late with a tick below it). -/
theorem c3_watermark_monotone (env : PhysEnv) (grounds : List GroundBody)
    (t : Int) (p : Player)
    (h : p.inputQueue.all (fun i => decide (p.lastProcessedTick ≤ i.tick)) = true) :
    p.lastProcessedTick ≤ (stepPlayer env grounds t p).lastProcessedTick := by
  have hmem : ∀ i ∈ sortByTick p.inputQueue, p.lastProcessedTick ≤ i.tick := by
    intro i hi
    have h2 := List.all_eq_true.mp h i (mem_of_mem_sortByTick i p.inputQueue hi)
    exact of_decide_eq_true h2
  have hlpt := drainInputQueue_lpt_cases (isGrounded env grounds p.body) t
    (sortByTick p.inputQueue) p.body p.lastProcessedTick
  simp only [stepPlayer]
  rcases hlpt with he | ⟨i, hi, he⟩
  · rw [he]
  · rw [he]
    exact hmem i hi

/-- Witness for the amended C3: a fresh player (watermark 0) holding the
tick-1 command satisfies the hypothesis, and a step at tick 5 does not
decrease the watermark. -/
theorem c3_watermark_monotone_witness :
    p3.inputQueue.all (fun i => decide (p3.lastProcessedTick ≤ i.tick)) = true ∧
      p3.lastProcessedTick ≤ (stepPlayer env0 LEVEL_GROUNDS 5 p3).lastProcessedTick :=
  ⟨by decide, c3_watermark_monotone env0 LEVEL_GROUNDS 5 p3 (by decide)⟩

/-- Counterexample to claim C4 as stated: the second reconciliation pass
does not halve the remaining 20-unit distance to 10.  The distance 20
is below the 30-unit threshold, so the pass uses the low blend factor
0.2 and leaves distance 16 (squared distance 256, not 100). -/
theorem c4_second_pass_counterexample :
    distSqBetween c4pass2.x c4pass2.y c4sp.x c4sp.y = 256 ∧
    distSqBetween c4pass2.x c4pass2.y c4sp.x c4sp.y ≠ 100 := by
  have h1 : c4pass1 = { x := 20, y := 0, vx := 0, vy := 0, forceY := 0 } := by
    have hcond : distSqBetween bZero.x bZero.y c4sp.x c4sp.y > 900 := by
      norm_num [distSqBetween, bZero, createPlayerBody, c4sp]
    simp only [c4pass1, reconcileWithServer, if_pos hcond, List.filter_nil,
      List.foldl_nil]
    simp [linear, bZero, createPlayerBody, c4sp]
    norm_num
  have h2 : c4pass2 = { x := 24, y := 0, vx := 0, vy := 0, forceY := 0 } := by
    norm_num [c4pass2, h1, reconcileWithServer, distSqBetween, linear, c4sp]
  rw [h2]
  norm_num [distSqBetween, c4sp]

/-- Claim C4, amended: from 40 units of divergence with an empty replay
buffer, the first reconciliation pass uses the high factor 0.5 (40 > 30)
and reduces the distance to 20 (squared 400); the second pass sees
20 ≤ 30, uses the low factor 0.2 and reduces the distance to 16
(squared 256), not 10. -/
theorem c4_reconcile_blend :
    distSqBetween c4pass1.x c4pass1.y c4sp.x c4sp.y = 400 ∧
    distSqBetween c4pass2.x c4pass2.y c4sp.x c4sp.y = 256 ∧
    c4pass1.x = 20 ∧ c4pass2.x = 24 := by
  have h1 : c4pass1 = { x := 20, y := 0, vx := 0, vy := 0, forceY := 0 } := by
    have hcond : distSqBetween bZero.x bZero.y c4sp.x c4sp.y > 900 := by
      norm_num [distSqBetween, bZero, createPlayerBody, c4sp]
    simp only [c4pass1, reconcileWithServer, if_pos hcond, List.filter_nil,
      List.foldl_nil]
    simp [linear, bZero, createPlayerBody, c4sp]
    norm_num
  have h2 : c4pass2 = { x := 24, y := 0, vx := 0, vy := 0, forceY := 0 } := by
    norm_num [c4pass2, h1, reconcileWithServer, distSqBetween, linear, c4sp]
  rw [h1, h2]
  norm_num [distSqBetween, c4sp]

/-- Counterexample to claim C5 as stated: there is no duplicate-tick
discard.  Enqueuing ticks `[5, 2, 9, 2]` and draining up to tick 9
applies four commands — both tick-2 commands — in the order
`2, 2, 5, 9`, not the three commands `2, 5, 9`. -/
theorem c5_duplicate_tick_counterexample :
    c5drain.applied.map (fun i => i.tick) = [2, 2, 5, 9] ∧
    c5drain.applied.map (fun i => i.tick) ≠ [2, 5, 9] := by
  decide

/-- Claim C5, amended: enqueue appends without deduplication; at drain
time the queue is stably sorted by tick and every command with tick ≤ 9
is consumed in ascending tick order, duplicates retained in arrival
order — the first-enqueued tick-2 command (`c5b`) before the
second (`c5d`) — leaving the queue empty. -/
theorem c5_drain_order :
    c5drain.applied = [c5b, c5d, c5a, c5c] ∧ c5drain.remaining = [] := by
  decide

/-- Counterexample to claim C6 as stated: when both left and right are
pressed the net horizontal velocity is not zero — `left` is tested
first, so the velocity is `-PLAYER_SPEED = -5` on both the client and
the server path. -/
theorem c6_both_pressed_counterexample :
    (applyInput env0 LEVEL_GROUNDS bZero iBoth).vx = -5 ∧
    (applyInput env0 LEVEL_GROUNDS bZero iBoth).vx ≠ 0 ∧
    (serverApplyOne true bZero iBoth).vx = -5 ∧
    (serverApplyOne true bZero iBoth).vx ≠ 0 := by
  decide

/-- Claim C6, amended: for every applied command, on both the
authoritative and the predictive path, the horizontal velocity is set
to `-PLAYER_SPEED` when `left` is set (including when both flags are
set: left wins), else `PLAYER_SPEED` when `right` is set, else 0. -/
theorem c6_horizontal_velocity (env : PhysEnv) (grounds : List GroundBody)
    (g : Bool) (b : Body) (i : InputData) :
    (serverApplyOne g b i).vx =
      (if i.left then -PLAYER_SPEED else if i.right then PLAYER_SPEED else 0) ∧
    (applyInput env grounds b i).vx =
      (if i.left then -PLAYER_SPEED else if i.right then PLAYER_SPEED else 0) := by
  constructor <;>
    · simp only [serverApplyOne, applyInput, applyJump]
      split <;> rfl

/-- Claim C7: after a predictive fixed step in which the input buffer
(including the newly pushed command) exceeded the high-water mark of
100, every remaining buffered command has tick > adjustedTick − 50,
where adjustedTick = currentTick + serverTickOffset of that step; after
an authoritative step in which an entity's queue still held more than
20 commands after the drain, every remaining queued command has
tick > currentTick − 10. -/
theorem c7_queue_bounding :
    (∀ (env : PhysEnv) (grounds : List GroundBody) (lk rk jk : Bool)
      (cs : ClientState), cs.inputBuffer.length + 1 > 100 →
      ((clientFixedTick env grounds lk rk jk cs).inputBuffer.all
        (fun i => decide (i.tick > cs.currentTick + 1 + cs.serverTickOffset - 50)))
        = true) ∧
    (∀ (env : PhysEnv) (grounds : List GroundBody) (t : Int) (p : Player),
      (drainInputQueue (isGrounded env grounds p.body) t
        (sortByTick p.inputQueue) p.body p.lastProcessedTick).remaining.length > 20 →
      ((stepPlayer env grounds t p).inputQueue.all
        (fun i => decide (i.tick > t - 10))) = true) := by
  constructor
  · intro env grounds lk rk jk cs h
    simp only [clientFixedTick]
    split
    · exact all_filter_self _ _
    · rename_i hfalse
      exact absurd (by simpa using h) hfalse
  · intro env grounds t p h
    simp only [stepPlayer]
    split
    · exact all_filter_self _ _
    · rename_i hfalse
      exact absurd h hfalse

/-- Witness for C7: a client buffer of 100 commands overflows on the
next step and is trimmed to the retention window; an authoritative
queue of 21 not-yet-due commands exceeds the mark after a drain at tick
5 and every survivor has tick > −5. -/
theorem c7_queue_bounding_witness :
    csFull.inputBuffer.length + 1 > 100 ∧
    ((clientFixedTick env0 LEVEL_GROUNDS false false false csFull).inputBuffer.all
      (fun i => decide (i.tick > csFull.currentTick + 1 + csFull.serverTickOffset - 50)))
      = true ∧
    (drainInputQueue (isGrounded env0 LEVEL_GROUNDS pFuture.body) 5
      (sortByTick pFuture.inputQueue) pFuture.body
      pFuture.lastProcessedTick).remaining.length > 20 ∧
    ((stepPlayer env0 LEVEL_GROUNDS 5 pFuture).inputQueue.all
      (fun i => decide (i.tick > 5 - 10))) = true :=
  ⟨by decide,
   c7_queue_bounding.1 env0 LEVEL_GROUNDS false false false csFull (by decide),
   by decide,
   c7_queue_bounding.2 env0 LEVEL_GROUNDS 5 pFuture (by decide)⟩

/-- Claim C8: the pong handler derives
`tickOffset = round(rtt / (2 × FIXED_TIME_STEP))` from
`rtt = endTime − lastPingTime`, and an observed RTT of 100 ms with the
1000/60 ms fixed interval yields offset 3. -/
theorem c8_tick_offset_formula :
    (∀ endTime lastPingTime : ℚ,
      (handlePong endTime lastPingTime).2 =
        jsRound ((endTime - lastPingTime) / (2 * FIXED_TIME_STEP))) ∧
    (handlePong 1100 1000).1 = 100 ∧ computeTickOffset 100 = 3 := by
  refine ⟨fun endTime lastPingTime => rfl, ?_, ?_⟩
  · norm_num [handlePong]
  · norm_num [computeTickOffset, jsRound, FIXED_TIME_STEP]

/-- Claim C9: an input message for a session id with no entity state
(join not completed) is dropped silently — the handler returns the room
state unchanged, so the physics world and every other entity's queue
are untouched and no error is raised. -/
theorem c9_unknown_session_drop (s : RoomState) (sid : String)
    (input : InputData) (h : s.players.lookup sid = none) :
    handleInputMessage s sid input = s := by
  unfold handleInputMessage
  rw [h]

/-- Witness for C9: a command from an unknown session id leaves the
concrete one-player room unchanged. -/
theorem c9_unknown_session_drop_witness :
    st0.players.lookup sidGhost = none ∧
      handleInputMessage st0 sidGhost cT1 = st0 :=
  ⟨by decide, c9_unknown_session_drop st0 sidGhost cT1 (by decide)⟩

/-- Claim C10: the shared `isGrounded` returns true for every body whose
vertical-velocity magnitude is below 0.1 — for any collision and ray
oracle answers, in particular when no collision contact exists and the
downward ray hits nothing; jump eligibility therefore does not require
contact with static geometry. -/
theorem c10_low_velocity_grounded (env : PhysEnv)
    (grounds : List GroundBody) (b : Body) (h : ratAbs b.vy < 1 / 10) :
    isGrounded env grounds b = true := by
  simp only [isGrounded, Bool.or_eq_true, decide_eq_true_eq]
  right
  exact h

/-- Witness for C10: a mid-air body at the apex of a jump (`vy = 0`,
far from all geometry, all physics queries answering no) is still
reported grounded. -/
theorem c10_low_velocity_grounded_witness :
    ratAbs bApex.vy < 1 / 10 ∧ isGrounded env0 LEVEL_GROUNDS bApex = true :=
  ⟨by norm_num [ratAbs, bApex],
   c10_low_velocity_grounded env0 LEVEL_GROUNDS bApex (by norm_num [ratAbs, bApex])⟩
